import Mathlib

/-!
Shallow embedding of the i2cpy repository (a Python USB-to-I2C driver
abstraction layer) and verification of its specification claims.

Python integers are modelled as `Int`.  Python floor shifts `x >> i` are
`x / 2 ^ i` (Lean `Int` division is Euclidean division, which coincides with
floor division for positive divisors), and bit masks `x & 0xFF` / `x & 0x7`
are `x % 256` / `x % 8` (Euclidean remainder, non-negative, matching Python's
semantics on arbitrary-sign integers).  `bytes` values are `List Int` whose
elements are in `[0, 256)`.  Exceptions are modelled with `Except PyErr`.
-/

/-- The exceptions that the modelled code paths can raise: the typed
exceptions from `i2cpy/errors.py` plus the Python builtin errors that the
modelled operations can produce. -/
inductive PyErr where
  /-- `I2CMemoryAddressSizeError(addrsize)` from `i2cpy/errors.py`. -/
  | memAddrSize (addrsize : Int)
  /-- `I2COperationFailedError(operation)` from `i2cpy/errors.py`. -/
  | opFailed (operation : String)
  /-- `I2CInvalidDriverError(driver_name)` from `i2cpy/errors.py`. -/
  | invalidDriver (driver_name : String)
  /-- `I2CUnsupportedError` from `i2cpy/errors.py`. -/
  | unsupported
  /-- Python builtin `ValueError` (e.g. from `bytes([x])` with `x` out of range). -/
  | valueErr
  /-- Python builtin `TypeError` (e.g. calling a constructor with a missing
  required positional argument). -/
  | typeErr
  /-- Python builtin `OverflowError` (from `int.to_bytes` when the value does
  not fit). -/
  | overflowErr
  /-- Python builtin `AttributeError` (from `getattr` without a default on a
  missing dll symbol). -/
  | attrErr (name : String)
  deriving Repr, DecidableEq

/-- The argument of `to_buffer` in `i2cpy/driver/abc.py`: a `Buffer`
(already-validated bytes), a `list[int]`, or a single `int`. -/
inductive PyData where
  | buf (b : List Int)
  | list (xs : List Int)
  | int (x : Int)
  deriving Repr, DecidableEq

/-- `i2c_addr_byte` from `i2cpy/driver/abc.py`, integer-address branch:
`addr = addr << 1`; `if is_read: addr |= 1` (the shifted value is even, so
or-ing 1 adds 1); `addr.to_bytes(1, "big")` succeeds exactly when the value
is in `[0, 256)` and otherwise raises `OverflowError`. -/
def i2c_addr_byte (addr : Int) (is_read : Bool) : Except PyErr (List Int) :=
  let a : Int := 2 * addr + (if is_read then 1 else 0)
  if 0 ≤ a ∧ a < 256 then Except.ok [a] else Except.error PyErr.overflowErr

/-- `to_buffer` from `i2cpy/driver/abc.py`: a `Buffer` is returned as is; a
list goes through `bytes(x)`, which raises `ValueError` unless every element
is in `[0, 256)`; an int goes through `bytes([x])` likewise. -/
def to_buffer (x : PyData) : Except PyErr (List Int) :=
  match x with
  | PyData.buf b => Except.ok b
  | PyData.list xs =>
      if xs.all (fun v => decide (0 ≤ v ∧ v < 256)) then Except.ok xs
      else Except.error PyErr.valueErr
  | PyData.int v =>
      if 0 ≤ v ∧ v < 256 then Except.ok [v] else Except.error PyErr.valueErr

/-- Closed form of Python `range(start, -1, -8)`: the descending list
`[start, start - 8, ...]` of values `> -1`; empty when `start < 0`. -/
def pyRangeDown8 (start : Int) : List Int :=
  if start < 0 then []
  else (List.range (start.toNat / 8 + 1)).map (fun (k : Nat) => start - 8 * (k : Int))

/-- `memaddr_to_bytes` from `i2cpy/driver/abc.py`: raise
`I2CMemoryAddressSizeError` when `addrsize & 0x7 != 0 or addrsize > 32 or
addrsize < 8`; otherwise return
`bytes(to_buffer([(memaddr >> i) & 0xFF for i in range(addrsize - 8, -1, -8)]))`. -/
def memaddr_to_bytes (memaddr : Int) (addrsize : Int) : Except PyErr (List Int) :=
  if addrsize % 8 ≠ 0 ∨ addrsize > 32 ∨ addrsize < 8 then
    Except.error (PyErr.memAddrSize addrsize)
  else
    to_buffer (PyData.list
      ((pyRangeDown8 (addrsize - 8)).map (fun i => memaddr / 2 ^ i.toNat % 256)))

/-- Specification-side definition: the `k`-byte big-endian encoding of `v`,
most significant byte first (byte `j` holds bits `8*(k-1-j) .. 8*(k-j)-1`). -/
def beBytes (v : Int) (k : Nat) : List Int :=
  (List.range k).map (fun j => v / 2 ^ (8 * (k - 1 - j)) % 256)

example : memaddr_to_bytes 0x2A 8 = Except.ok [0x2A] := rfl
example : memaddr_to_bytes 0xC52A 8 = Except.ok [0x2A] := rfl
example : memaddr_to_bytes 0xC52A 16 = Except.ok [0xC5, 0x2A] := rfl
example : memaddr_to_bytes 0xC52A 32 = Except.ok [0x00, 0x00, 0xC5, 0x2A] := rfl
example : memaddr_to_bytes 0x7B3EC52A 24 = Except.ok [0x3E, 0xC5, 0x2A] := rfl
example : memaddr_to_bytes 0x10 9 = Except.error (PyErr.memAddrSize 9) := rfl
example : memaddr_to_bytes 0x10 (-8) = Except.error (PyErr.memAddrSize (-8)) := rfl
example : memaddr_to_bytes 0x10 64 = Except.error (PyErr.memAddrSize 64) := rfl

/-- The constructor of `I2COperationFailedError` in `i2cpy/errors.py`:
`__init__(self, operation: str, additional_message=None)`.  Calling it with
no positional argument raises `TypeError` (missing required positional
argument `operation`); with one argument it builds the typed exception. -/
def mk_I2COperationFailedError (args : List String) : Except PyErr PyErr :=
  match args with
  | [] => Except.error PyErr.typeErr
  | operation :: _ => Except.ok (PyErr.opFailed operation)

/-- `CH341._check_ret` from `i2cpy/driver/ch341/__init__.py`:
`if not result: raise I2COperationFailedError()` — the constructor is called
with no arguments. -/
def ch341_check_ret (result : Int) : Except PyErr Unit :=
  if result = 0 then
    match mk_I2COperationFailedError [] with
    | Except.ok e => Except.error e
    | Except.error e => Except.error e
  else Except.ok ()

/-- `CH347._check_ret` from `i2cpy/driver/ch347/__init__.py`:
`if not result: raise I2COperationFailedError(operation)`. -/
def ch347_check_ret (result : Int) (operation : String) : Except PyErr Unit :=
  if result = 0 then
    match mk_I2COperationFailedError [operation] with
    | Except.ok e => Except.error e
    | Except.error e => Except.error e
  else Except.ok ()

/-- Python `x or y` on `Optional[str]` operands: `None` and `""` are falsy. -/
def py_str_or (x y : Option String) : Option String :=
  match x with
  | some s => if s = "" then y else some s
  | none => y

/-- Python `str.lower` for the ASCII driver names used here: lowercase each
character. -/
def py_lower (s : String) : String := ⟨s.data.map Char.toLower⟩

/-- The driver-name selection in `I2C.__init__` (`i2cpy/__init__.py`):
`(driver or os.getenv("I2CPY_DRIVER") or "ch341").lower()`.  `env` is the
value of the environment variable (`none` when undefined). -/
def select_driver_name (driver env : Option String) : String :=
  py_lower (match py_str_or (py_str_or driver env) (some "ch341") with
            | some s => s
            | none => "")

/-- The driver-module import in `I2C.__init__`: `import_module` of
`"i2cpy.driver." + name` (modelled by the importability predicate `avail`);
on `ModuleNotFoundError`/`ImportError` it raises
`I2CInvalidDriverError(driver_name)`. -/
def i2c_select_driver (avail : String → Bool) (driver env : Option String) :
    Except PyErr String :=
  let name := select_driver_name driver env
  if avail ("i2cpy.driver." ++ name) then Except.ok name
  else Except.error (PyErr.invalidDriver name)

/-- A call made by `I2C` to its driver object. -/
inductive DriverCall where
  | writeto (addr : Int) (buf : List Int)
  deriving Repr, DecidableEq

/-- `I2C.writeto_mem` from `i2cpy/__init__.py`, recording the calls made to
the driver: `wbuf = memaddr_to_bytes(memaddr, addrsize) + buf;
self.writeto(addr, wbuf)`.  The second component is the list of driver calls
performed before returning or raising. -/
def i2c_writeto_mem_calls (addr memaddr : Int) (buf : List Int)
    (addrsize : Int) : Except PyErr Unit × List DriverCall :=
  match memaddr_to_bytes memaddr addrsize with
  | Except.error e => (Except.error e, [])
  | Except.ok mb => (Except.ok (), [DriverCall.writeto addr (mb ++ buf)])

/-- Closed form of Python `range(start, stop)` for integers: the ascending
list `[start, start + 1, ..., stop - 1]`; empty when `stop ≤ start`. -/
def pyRangeUp (start stop : Int) : List Int :=
  (List.range (stop - start).toNat).map (fun (k : Nat) => start + (k : Int))

/-- `I2C.scan` from `i2cpy/__init__.py`, with the driver's `check_device`
abstracted as a boolean oracle.  `supports` is modelled from the spec:
`driver.supports_scan()` is not among the source files ("Depending on the
specific driver and OS platform, scan() may or may not work"), so it is a
boolean parameter.  When it is false, `I2CUnsupportedError` is raised;
otherwise the result is
`[a for a in range(start, stop + 1) if self.driver.check_device(a)]`. -/
def i2c_scan (supports : Bool) (check : Int → Bool) (start stop : Int) :
    Except PyErr (List Int) :=
  if supports then Except.ok ((pyRangeUp start (stop + 1)).filter check)
  else Except.error PyErr.unsupported

/-- The write buffer computed by `CH341.readfrom_mem_into`
(`i2cpy/driver/ch341/__init__.py`):
`wbuf = bytes(i2c_addr_byte(addr)) + to_buffer(memaddr)`.  The `addrsize`
keyword parameter is accepted but unused. -/
def ch341_readfrom_mem_wbuf (addr memaddr : Int) (addrsize : Int) :
    Except PyErr (List Int) :=
  match i2c_addr_byte addr false with
  | Except.error e => Except.error e
  | Except.ok ab =>
    match to_buffer (PyData.int memaddr) with
    | Except.error e => Except.error e
    | Except.ok mb => Except.ok (ab ++ mb)

/-- The write buffer computed by `CH347.readfrom_mem_into`
(`i2cpy/driver/ch347/__init__.py`):
`wbuf = bytes(i2c_addr_byte(addr)) + memaddr_to_bytes(memaddr, addrsize)`. -/
def ch347_readfrom_mem_wbuf (addr memaddr : Int) (addrsize : Int) :
    Except PyErr (List Int) :=
  match i2c_addr_byte addr false with
  | Except.error e => Except.error e
  | Except.ok ab =>
    match memaddr_to_bytes memaddr addrsize with
    | Except.error e => Except.error e
    | Except.ok mb => Except.ok (ab ++ mb)

example : ch341_readfrom_mem_wbuf 0x51 0x10 16 = Except.ok [0xA2, 0x10] := rfl
example : ch347_readfrom_mem_wbuf 0x51 0x10 16 = Except.ok [0xA2, 0x00, 0x10] := rfl
example : ch341_readfrom_mem_wbuf 0x51 0x0110 8 = Except.error PyErr.valueErr := rfl

/-- A loaded shared object as `ctypes` sees it: the symbols the library
exports, plus the attribute bindings added by `setattr` (mapping an attribute
name to the export it dispatches to). -/
structure Dll where
  exports : List String
  bindings : List (String × String)
  deriving Repr, DecidableEq

/-- `getattr(dll, name)` on a `ctypes` dll object: a previously bound
attribute, else the exported symbol of that name, else `none`
(`AttributeError` when no default is given). -/
def dll_lookup (d : Dll) (name : String) : Option String :=
  match d.bindings.lookup name with
  | some s => some s
  | none => if d.exports.contains name then some name else none

/-- `re.sub(r"^CH341", "CH34x", fname)` (and the CH347 analogue): replace the
leading vendor marker by the generic one. -/
def ch34x_fallback_name (vendor fname : String) : String :=
  if fname.take vendor.length = vendor then "CH34x" ++ fname.drop vendor.length
  else fname

/-- The required-function list in `i2cpy/driver/ch341/dll.py`. -/
def ch341_funcs : List String :=
  ["CH341OpenDevice", "CH341CloseDevice", "CH341SetStream",
   "CH341StreamI2C", "CH341WriteData", "CH341WriteRead"]

/-- The required-function list in `i2cpy/driver/ch347/dll.py` (verbatim,
including the spelling `"CH347WiteData"`; the commented-out entries are
omitted). -/
def ch347_funcs : List String :=
  ["CH347OpenDevice", "CH347CloseDevice", "CH347StreamI2C",
   "CH347WiteData", "CH347WriteRead"]

/-- The symbol-binding loop of `ch341/dll.py` (POSIX branch): for each
required name, if `getattr(dll, fname, None)` is falsy, fetch the `CH34x`
fallback with `getattr(dll, fname2)` — which raises `AttributeError` when
absent — and `setattr` it under the original name. -/
def ch341_bind_funcs (d : Dll) : List String → Except PyErr Dll
  | [] => Except.ok d
  | fname :: rest =>
    match dll_lookup d fname with
    | some _ => ch341_bind_funcs d rest
    | none =>
      let fname2 := ch34x_fallback_name "CH341" fname
      match dll_lookup d fname2 with
      | some s =>
          ch341_bind_funcs { d with bindings := d.bindings ++ [(fname, s)] } rest
      | none => Except.error (PyErr.attrErr fname2)

/-- The symbol-binding loop of `ch347/dll.py` (POSIX branch): for each
required name, if `getattr(dll, fname, None)` is falsy, fetch the `CH34x`
fallback with `getattr(dll, fname2, None)` and bind it only when it is not
`None` — a missing fallback is silently skipped. -/
def ch347_bind_funcs (d : Dll) : List String → Dll
  | [] => d
  | fname :: rest =>
    match dll_lookup d fname with
    | some _ => ch347_bind_funcs d rest
    | none =>
      let fname2 := ch34x_fallback_name "CH347" fname
      match dll_lookup d fname2 with
      | some s =>
          ch347_bind_funcs { d with bindings := d.bindings ++ [(fname, s)] } rest
      | none => ch347_bind_funcs d rest

/-- `load()` of `i2cpy/driver/ch341/dll.py`, POSIX branch, after
`cdll.LoadLibrary`: run the binding loop, then set `argtypes` on
`dll.CH34xOpenDevice`, `dll.CH341OpenDevice`, `dll.CH34xSetStream` and
`dll.CH341SetStream` — each of these attribute accesses raises
`AttributeError` when the name is neither bound nor exported. -/
def ch341_load (d : Dll) : Except PyErr Dll :=
  match ch341_bind_funcs d ch341_funcs with
  | Except.error e => Except.error e
  | Except.ok d1 =>
    match ["CH34xOpenDevice", "CH341OpenDevice", "CH34xSetStream",
           "CH341SetStream"].find? (fun n => (dll_lookup d1 n).isNone) with
    | some missing => Except.error (PyErr.attrErr missing)
    | none => Except.ok d1

/-- `load()` of `i2cpy/driver/ch347/dll.py`, POSIX branch, after
`cdll.LoadLibrary`: set `argtypes` on `dll.CH34xOpenDevice` and
`dll.CH34xSetStream` (raising `AttributeError` when absent), then run the
binding loop. -/
def ch347_load (d : Dll) : Except PyErr Dll :=
  match ["CH34xOpenDevice", "CH34xSetStream"].find?
      (fun n => (dll_lookup d n).isNone) with
  | some missing => Except.error (PyErr.attrErr missing)
  | none => Except.ok (ch347_bind_funcs d ch347_funcs)

/-- A shared object exporting exactly the `CH34x` spelling of every native
function the two drivers use. -/
def ch34x_exports : List String :=
  ["CH34xOpenDevice", "CH34xCloseDevice", "CH34xSetStream", "CH34xStreamI2C",
   "CH34xWriteData", "CH34xWriteRead", "CH34x_GetChipVersion"]

/-- With the `CH34x` spelling, the CH341 loader binds every required name to
its fallback. -/
def ch341_loaded_ch34x : Dll :=
  { exports := ch34x_exports,
    bindings :=
      [("CH341OpenDevice", "CH34xOpenDevice"),
       ("CH341CloseDevice", "CH34xCloseDevice"),
       ("CH341SetStream", "CH34xSetStream"),
       ("CH341StreamI2C", "CH34xStreamI2C"),
       ("CH341WriteData", "CH34xWriteData"),
       ("CH341WriteRead", "CH34xWriteRead")] }

example :
    ch341_load { exports := ch34x_exports, bindings := [] } =
      Except.ok ch341_loaded_ch34x := rfl

example :
    (ch341_funcs.all fun f => (dll_lookup ch341_loaded_ch34x f).isSome) = true := rfl

/-- Modelled from the spec: the native command constants from the drivers'
`constants` module, which is not among the source files.  The claims do not
depend on the values; these are the conventional CH341 stream-command codes. -/
def mCH341A_CMD_I2C_STREAM : Int := 0xAA

/-- Modelled from the spec: see `mCH341A_CMD_I2C_STREAM`. -/
def mCH341A_CMD_I2C_STM_STA : Int := 0x74

/-- Modelled from the spec: see `mCH341A_CMD_I2C_STREAM`. -/
def mCH341A_CMD_I2C_STM_STO : Int := 0x75

/-- Modelled from the spec: see `mCH341A_CMD_I2C_STREAM`. -/
def mCH341A_CMD_I2C_STM_OUT : Int := 0x80

/-- Modelled from the spec: see `mCH341A_CMD_I2C_STREAM`. -/
def mCH341A_CMD_I2C_STM_END : Int := 0x00

/-- The behaviour of the native CH341 library during one operation: the
return code and output data of each kind of call.  The library is outside
the repository, so it is an oracle parameter. -/
structure Native where
  /-- `CH341StreamI2C(fd, len(ibuf), ibuf, nbytes, obuf)`: return code and
  the bytes stored into `obuf`. -/
  streamI2C : Int → List Int → Nat → Int × List Int
  /-- `CH341WriteData(fd, buf, iolength)`: return code. -/
  writeData : Int → List Int → Int
  /-- `CH341WriteRead(fd, len(buf), buf, ...)`: return code, `ilen[0]` and
  the bytes stored into `ibuf`. -/
  writeRead : Int → List Int → Int × Nat × List Int

/-- The instance fields of a `CH341` driver object
(`i2cpy/driver/ch341/__init__.py`): `_fd` and `baudrate` (the enum value). -/
structure CH341State where
  fd : Int
  baudrate : Nat

/-- The instance fields of an `I2C` object (`i2cpy/__init__.py`):
`index`, `baudrate`, `driver_name`, `driver_module` (modelled by the module
name) and `driver`. -/
structure I2CState where
  index : Option Int
  baudrate : Int
  driver_name : String
  driver_module : String
  driver : CH341State

/-- `CH341._writeread_into`: marshal `buf`, call `CH341StreamI2C`, check the
return code, and expose the bytes read.  No instance field is assigned. -/
def ch341_writeread_into (st : CH341State) (native : Native) (wbuf : List Int)
    (rlen : Nat) : Except PyErr (List Int) × CH341State :=
  let r := native.streamI2C st.fd wbuf rlen
  match ch341_check_ret r.1 with
  | Except.error e => (Except.error e, st)
  | Except.ok _ => (Except.ok r.2, st)

/-- `CH341._write`: `self._writeread_into(buf, None)`. -/
def ch341_write (st : CH341State) (native : Native) (wbuf : List Int) :
    Except PyErr Unit × CH341State :=
  match ch341_writeread_into st native wbuf 0 with
  | (Except.error e, st1) => (Except.error e, st1)
  | (Except.ok _, st1) => (Except.ok (), st1)

/-- `CH341.readfrom_into`: `wbuf = i2c_addr_byte(addr);
self._writeread_into(wbuf, buf)`. -/
def ch341_readfrom_into (st : CH341State) (native : Native) (addr : Int)
    (rlen : Nat) : Except PyErr (List Int) × CH341State :=
  match i2c_addr_byte addr false with
  | Except.error e => (Except.error e, st)
  | Except.ok wbuf => ch341_writeread_into st native wbuf rlen

/-- `I2CDriverBase.readfrom` (`i2cpy/driver/abc.py`): allocate a buffer of
`nbytes`, `readfrom_into`, return its contents. -/
def ch341_readfrom (st : CH341State) (native : Native) (addr : Int)
    (nbytes : Nat) : Except PyErr (List Int) × CH341State :=
  ch341_readfrom_into st native addr nbytes

/-- `CH341.writeto`: `wbuf = bytes(i2c_addr_byte(addr)) + to_buffer(buf);
self._write(wbuf)`. -/
def ch341_writeto (st : CH341State) (native : Native) (addr : Int)
    (buf : PyData) : Except PyErr Unit × CH341State :=
  match i2c_addr_byte addr false with
  | Except.error e => (Except.error e, st)
  | Except.ok ab =>
    match to_buffer buf with
    | Except.error e => (Except.error e, st)
    | Except.ok bb => ch341_write st native (ab ++ bb)

/-- `CH341.readfrom_mem_into`: build `wbuf` (see `ch341_readfrom_mem_wbuf`;
`addrsize` is unused) and `self._writeread_into(wbuf, buf)`. -/
def ch341_readfrom_mem_into (st : CH341State) (native : Native)
    (addr memaddr : Int) (rlen : Nat) (addrsize : Int) :
    Except PyErr (List Int) × CH341State :=
  match ch341_readfrom_mem_wbuf addr memaddr addrsize with
  | Except.error e => (Except.error e, st)
  | Except.ok wbuf => ch341_writeread_into st native wbuf rlen

/-- `CH341._start`: `CH341WriteData` of the start command, then `_check_ret`. -/
def ch341_start (st : CH341State) (native : Native) :
    Except PyErr Unit × CH341State :=
  (ch341_check_ret (native.writeData st.fd
    [mCH341A_CMD_I2C_STREAM, mCH341A_CMD_I2C_STM_STA, mCH341A_CMD_I2C_STM_END]),
   st)

/-- `CH341._stop`: `CH341WriteData` of the stop command, then `_check_ret`. -/
def ch341_stop (st : CH341State) (native : Native) :
    Except PyErr Unit × CH341State :=
  (ch341_check_ret (native.writeData st.fd
    [mCH341A_CMD_I2C_STREAM, mCH341A_CMD_I2C_STM_STO, mCH341A_CMD_I2C_STM_END]),
   st)

/-- `CH341._out_byte_check_ack`: `CH341WriteRead` of the out command,
`_check_ret`, then `ilen[0] > 0 and ibuf[ilen[0]-1] & 0x80 == 0` (the `ibuf`
entries are `c_byte`, so the mask test is `value mod 256 < 128`). -/
def ch341_out_byte_check_ack (st : CH341State) (native : Native)
    (obyte : Int) : Except PyErr Bool × CH341State :=
  let r := native.writeRead st.fd
    [mCH341A_CMD_I2C_STREAM, mCH341A_CMD_I2C_STM_OUT, obyte,
     mCH341A_CMD_I2C_STM_END]
  match ch341_check_ret r.1 with
  | Except.error e => (Except.error e, st)
  | Except.ok _ =>
      (Except.ok (decide (0 < r.2.1) &&
        decide ((r.2.2.getD (r.2.1 - 1) 0) % 256 < 128)), st)

/-- `CH341.check_device`: `_start()`; then `try` the address byte and
`_out_byte_check_ack`, with `_stop()` in a `finally` block (an exception
raised by `_stop` replaces the pending result). -/
def ch341_check_device (st : CH341State) (native : Native) (addr : Int) :
    Except PyErr Bool × CH341State :=
  let started := ch341_start st native
  match started.1 with
  | Except.error e => (Except.error e, started.2)
  | Except.ok _ =>
    let body : Except PyErr Bool × CH341State :=
      match i2c_addr_byte addr false with
      | Except.error e => (Except.error e, started.2)
      | Except.ok ab => ch341_out_byte_check_ack started.2 native (ab.getD 0 0)
    let stopped := ch341_stop body.2 native
    match stopped.1 with
    | Except.error e => (Except.error e, stopped.2)
    | Except.ok _ => (body.1, stopped.2)

/-- The list comprehension in `I2C.scan`, evaluated left to right over the
scan range, propagating the first exception raised by `check_device`. -/
def ch341_scan_fold (st : CH341State) (native : Native) :
    List Int → Except PyErr (List Int) × CH341State
  | [] => (Except.ok [], st)
  | a :: rest =>
    let c := ch341_check_device st native a
    match c.1 with
    | Except.error e => (Except.error e, c.2)
    | Except.ok b =>
      let r := ch341_scan_fold c.2 native rest
      match r.1 with
      | Except.error e => (Except.error e, r.2)
      | Except.ok l => (Except.ok (if b then a :: l else l), r.2)

/-- `I2C.readfrom`: delegate to the driver. -/
def i2c_readfrom (st : I2CState) (native : Native) (addr : Int)
    (nbytes : Nat) : Except PyErr (List Int) × I2CState :=
  let r := ch341_readfrom st.driver native addr nbytes
  (r.1, { st with driver := r.2 })

/-- `I2C.readfrom_into`: delegate to the driver. -/
def i2c_readfrom_into (st : I2CState) (native : Native) (addr : Int)
    (rlen : Nat) : Except PyErr (List Int) × I2CState :=
  let r := ch341_readfrom_into st.driver native addr rlen
  (r.1, { st with driver := r.2 })

/-- `I2C.writeto`: delegate to the driver. -/
def i2c_writeto (st : I2CState) (native : Native) (addr : Int)
    (buf : PyData) : Except PyErr Unit × I2CState :=
  let r := ch341_writeto st.driver native addr buf
  (r.1, { st with driver := r.2 })

/-- `I2C.readfrom_mem_into`: delegate to the driver. -/
def i2c_readfrom_mem_into (st : I2CState) (native : Native)
    (addr memaddr : Int) (rlen : Nat) (addrsize : Int) :
    Except PyErr (List Int) × I2CState :=
  let r := ch341_readfrom_mem_into st.driver native addr memaddr rlen addrsize
  (r.1, { st with driver := r.2 })

/-- `I2C.readfrom_mem`: allocate a buffer of `nbytes`, `readfrom_mem_into`,
return its contents. -/
def i2c_readfrom_mem (st : I2CState) (native : Native) (addr memaddr : Int)
    (nbytes : Nat) (addrsize : Int) : Except PyErr (List Int) × I2CState :=
  i2c_readfrom_mem_into st native addr memaddr nbytes addrsize

/-- `I2C.writeto_mem`: `wbuf = memaddr_to_bytes(memaddr, addrsize) + buf;
self.writeto(addr, wbuf)`. -/
def i2c_writeto_mem (st : I2CState) (native : Native) (addr memaddr : Int)
    (buf : List Int) (addrsize : Int) : Except PyErr Unit × I2CState :=
  match memaddr_to_bytes memaddr addrsize with
  | Except.error e => (Except.error e, st)
  | Except.ok mb => i2c_writeto st native addr (PyData.buf (mb ++ buf))

/-- `I2C.scan` over the CH341 driver: raise `I2CUnsupportedError` when
`supports_scan()` is false (`supports` is modelled from the spec, see
`i2c_scan`), otherwise run `check_device` over
`range(start, stop + 1)`. -/
def i2c_scan_st (st : I2CState) (native : Native) (supports : Bool)
    (start stop : Int) : Except PyErr (List Int) × I2CState :=
  if supports then
    let r := ch341_scan_fold st.driver native (pyRangeUp start (stop + 1))
    (r.1, { st with driver := r.2 })
  else (Except.error PyErr.unsupported, st)

lemma ch341_start_fst (st : CH341State) (native : Native) :
    (ch341_start st native).1 = ch341_check_ret (native.writeData st.fd
      [mCH341A_CMD_I2C_STREAM, mCH341A_CMD_I2C_STM_STA,
       mCH341A_CMD_I2C_STM_END]) := rfl

lemma ch341_start_snd (st : CH341State) (native : Native) :
    (ch341_start st native).2 = st := rfl

lemma ch341_stop_fst (st : CH341State) (native : Native) :
    (ch341_stop st native).1 = ch341_check_ret (native.writeData st.fd
      [mCH341A_CMD_I2C_STREAM, mCH341A_CMD_I2C_STM_STO,
       mCH341A_CMD_I2C_STM_END]) := rfl

lemma ch341_stop_snd (st : CH341State) (native : Native) :
    (ch341_stop st native).2 = st := rfl

lemma ch341_writeread_into_frame (st : CH341State) (native : Native)
    (wbuf : List Int) (rlen : Nat) :
    (ch341_writeread_into st native wbuf rlen).2 = st := by
  simp only [ch341_writeread_into]
  cases ch341_check_ret (native.streamI2C st.fd wbuf rlen).1 <;> rfl

lemma ch341_write_frame (st : CH341State) (native : Native)
    (wbuf : List Int) : (ch341_write st native wbuf).2 = st := by
  simp only [ch341_write]
  have h := ch341_writeread_into_frame st native wbuf 0
  rcases hw : ch341_writeread_into st native wbuf 0 with ⟨r, st1⟩
  rw [hw] at h
  rcases r with e | v <;> simpa using h

lemma ch341_readfrom_into_frame (st : CH341State) (native : Native)
    (addr : Int) (rlen : Nat) :
    (ch341_readfrom_into st native addr rlen).2 = st := by
  simp only [ch341_readfrom_into]
  rcases i2c_addr_byte addr false with e | wbuf
  · rfl
  · exact ch341_writeread_into_frame st native wbuf rlen

lemma ch341_writeto_frame (st : CH341State) (native : Native) (addr : Int)
    (buf : PyData) : (ch341_writeto st native addr buf).2 = st := by
  simp only [ch341_writeto]
  rcases i2c_addr_byte addr false with e | ab
  · rfl
  · rcases to_buffer buf with e | bb
    · rfl
    · exact ch341_write_frame st native (ab ++ bb)

lemma ch341_readfrom_mem_into_frame (st : CH341State) (native : Native)
    (addr memaddr : Int) (rlen : Nat) (addrsize : Int) :
    (ch341_readfrom_mem_into st native addr memaddr rlen addrsize).2 = st := by
  simp only [ch341_readfrom_mem_into]
  rcases ch341_readfrom_mem_wbuf addr memaddr addrsize with e | wbuf
  · rfl
  · exact ch341_writeread_into_frame st native wbuf rlen

lemma ch341_out_byte_check_ack_frame (st : CH341State) (native : Native)
    (obyte : Int) : (ch341_out_byte_check_ack st native obyte).2 = st := by
  simp only [ch341_out_byte_check_ack]
  cases ch341_check_ret (native.writeRead st.fd
      [mCH341A_CMD_I2C_STREAM, mCH341A_CMD_I2C_STM_OUT, obyte,
       mCH341A_CMD_I2C_STM_END]).1 <;> rfl

lemma ch341_check_device_frame (st : CH341State) (native : Native)
    (addr : Int) : (ch341_check_device st native addr).2 = st := by
  simp only [ch341_check_device, ch341_start_fst, ch341_start_snd,
    ch341_stop_fst, ch341_stop_snd]
  cases ch341_check_ret (native.writeData st.fd
      [mCH341A_CMD_I2C_STREAM, mCH341A_CMD_I2C_STM_STA,
       mCH341A_CMD_I2C_STM_END]) with
  | error e => rfl
  | ok u =>
    rcases i2c_addr_byte addr false with e | ab
    · cases ch341_check_ret (native.writeData st.fd
          [mCH341A_CMD_I2C_STREAM, mCH341A_CMD_I2C_STM_STO,
           mCH341A_CMD_I2C_STM_END]) <;> rfl
    · rw [ch341_out_byte_check_ack_frame st native (ab.getD 0 0)]
      cases ch341_check_ret (native.writeData st.fd
          [mCH341A_CMD_I2C_STREAM, mCH341A_CMD_I2C_STM_STO,
           mCH341A_CMD_I2C_STM_END]) <;> rfl

lemma ch341_scan_fold_frame (native : Native) (l : List Int) :
    ∀ st : CH341State, (ch341_scan_fold st native l).2 = st := by
  induction l with
  | nil => intro st; rfl
  | cons a rest ih =>
    intro st
    simp only [ch341_scan_fold]
    rw [ch341_check_device_frame st native a]
    cases (ch341_check_device st native a).1 with
    | error e => rfl
    | ok b =>
      rw [ih st]
      cases (ch341_scan_fold st native rest).1 with
      | error e => rfl
      | ok l2 => rfl

lemma ch341_readfrom_frame (st : CH341State) (native : Native) (addr : Int)
    (nbytes : Nat) : (ch341_readfrom st native addr nbytes).2 = st :=
  ch341_readfrom_into_frame st native addr nbytes

lemma i2c_wrap_frame {α : Type} (st : I2CState)
    (p : Except PyErr α × CH341State) (h : p.2 = st.driver) :
    ((p.1, { st with driver := p.2 }) : Except PyErr α × I2CState).2 = st := by
  show { st with driver := p.2 } = st
  rw [h]

lemma i2c_readfrom_frame (st : I2CState) (native : Native) (addr : Int)
    (nbytes : Nat) : (i2c_readfrom st native addr nbytes).2 = st :=
  i2c_wrap_frame st _ (ch341_readfrom_frame st.driver native addr nbytes)

lemma i2c_readfrom_into_frame (st : I2CState) (native : Native) (addr : Int)
    (rlen : Nat) : (i2c_readfrom_into st native addr rlen).2 = st :=
  i2c_wrap_frame st _ (ch341_readfrom_into_frame st.driver native addr rlen)

lemma i2c_writeto_frame (st : I2CState) (native : Native) (addr : Int)
    (buf : PyData) : (i2c_writeto st native addr buf).2 = st :=
  i2c_wrap_frame st _ (ch341_writeto_frame st.driver native addr buf)

lemma i2c_readfrom_mem_into_frame (st : I2CState) (native : Native)
    (addr memaddr : Int) (rlen : Nat) (addrsize : Int) :
    (i2c_readfrom_mem_into st native addr memaddr rlen addrsize).2 = st :=
  i2c_wrap_frame st _
    (ch341_readfrom_mem_into_frame st.driver native addr memaddr rlen addrsize)

lemma i2c_readfrom_mem_frame (st : I2CState) (native : Native)
    (addr memaddr : Int) (nbytes : Nat) (addrsize : Int) :
    (i2c_readfrom_mem st native addr memaddr nbytes addrsize).2 = st :=
  i2c_readfrom_mem_into_frame st native addr memaddr nbytes addrsize

lemma i2c_writeto_mem_frame (st : I2CState) (native : Native)
    (addr memaddr : Int) (buf : List Int) (addrsize : Int) :
    (i2c_writeto_mem st native addr memaddr buf addrsize).2 = st := by
  simp only [i2c_writeto_mem]
  rcases memaddr_to_bytes memaddr addrsize with e | mb
  · rfl
  · exact i2c_writeto_frame st native addr (PyData.buf (mb ++ buf))

lemma i2c_scan_st_frame (st : I2CState) (native : Native) (supports : Bool)
    (start stop : Int) : (i2c_scan_st st native supports start stop).2 = st := by
  simp only [i2c_scan_st]
  cases supports with
  | false => rfl
  | true =>
    simp only [if_true]
    exact i2c_wrap_frame st _
      (ch341_scan_fold_frame native (pyRangeUp start (stop + 1)) st.driver)

lemma emod256_bound (x : Int) : 0 ≤ x % 256 ∧ x % 256 < 256 :=
  ⟨Int.emod_nonneg x (by norm_num), Int.emod_lt_of_pos x (by norm_num)⟩

lemma to_buffer_list_ok (xs : List Int) (h : ∀ v ∈ xs, 0 ≤ v ∧ v < 256) :
    to_buffer (PyData.list xs) = Except.ok xs := by
  simp only [to_buffer]
  rw [if_pos]
  rw [List.all_eq_true]
  intro v hv
  exact decide_eq_true (h v hv)

lemma memaddr_to_bytes_ok_of_valid (m a : Int)
    (h : ¬(a % 8 ≠ 0 ∨ a > 32 ∨ a < 8)) :
    memaddr_to_bytes m a =
      Except.ok ((pyRangeDown8 (a - 8)).map (fun i => m / 2 ^ i.toNat % 256)) := by
  simp only [memaddr_to_bytes]
  rw [if_neg h]
  apply to_buffer_list_ok
  intro v hv
  simp only [List.mem_map] at hv
  obtain ⟨i, _, rfl⟩ := hv
  exact emod256_bound _

lemma pyRangeDown8_8 : pyRangeDown8 (8 - 8) = [0] := rfl

lemma pyRangeDown8_16 : pyRangeDown8 (16 - 8) = [8, 0] := rfl

lemma pyRangeDown8_24 : pyRangeDown8 (24 - 8) = [16, 8, 0] := rfl

lemma pyRangeDown8_32 : pyRangeDown8 (32 - 8) = [24, 16, 8, 0] := rfl

lemma memaddr_to_bytes_8 (m : Int) :
    memaddr_to_bytes m 8 = Except.ok [m % 256] := by
  rw [memaddr_to_bytes_ok_of_valid m 8 (by norm_num), pyRangeDown8_8]
  norm_num [show Int.toNat 0 = 0 from rfl]

lemma memaddr_to_bytes_16 (m : Int) :
    memaddr_to_bytes m 16 = Except.ok [m / 256 % 256, m % 256] := by
  rw [memaddr_to_bytes_ok_of_valid m 16 (by norm_num), pyRangeDown8_16]
  norm_num [show Int.toNat 0 = 0 from rfl, show Int.toNat 8 = 8 from rfl]

lemma memaddr_to_bytes_24 (m : Int) :
    memaddr_to_bytes m 24 =
      Except.ok [m / 65536 % 256, m / 256 % 256, m % 256] := by
  rw [memaddr_to_bytes_ok_of_valid m 24 (by norm_num), pyRangeDown8_24]
  norm_num [show Int.toNat 0 = 0 from rfl, show Int.toNat 8 = 8 from rfl,
    show Int.toNat 16 = 16 from rfl]

lemma memaddr_to_bytes_32 (m : Int) :
    memaddr_to_bytes m 32 =
      Except.ok [m / 16777216 % 256, m / 65536 % 256, m / 256 % 256, m % 256] := by
  rw [memaddr_to_bytes_ok_of_valid m 32 (by norm_num), pyRangeDown8_32]
  norm_num [show Int.toNat 0 = 0 from rfl, show Int.toNat 8 = 8 from rfl,
    show Int.toNat 16 = 16 from rfl, show Int.toNat 24 = 24 from rfl]

lemma i2c_addr_byte_ok (addr : Int) (is_read : Bool) (h0 : 0 ≤ addr)
    (h1 : addr ≤ 127) :
    i2c_addr_byte addr is_read =
      Except.ok [2 * addr + (if is_read then 1 else 0)] := by
  simp only [i2c_addr_byte]
  rw [if_pos]
  cases is_read <;> simp <;> omega

lemma i2c_addr_byte_ok_false (addr : Int) (h0 : 0 ≤ addr) (h1 : addr ≤ 127) :
    i2c_addr_byte addr false = Except.ok [2 * addr] := by
  have h := i2c_addr_byte_ok addr false h0 h1
  simpa using h

lemma pyRangeUp_mem (s t a : Int) : a ∈ pyRangeUp s t ↔ s ≤ a ∧ a < t := by
  simp only [pyRangeUp, List.mem_map, List.mem_range]
  constructor
  · rintro ⟨k, hk, rfl⟩
    omega
  · rintro ⟨h1, h2⟩
    exact ⟨(a - s).toNat, by omega, by omega⟩

lemma pyRangeUp_sorted (s t : Int) : List.Sorted (· < ·) (pyRangeUp s t) := by
  unfold pyRangeUp
  refine List.Pairwise.map _ (fun a b hab => ?_) (List.pairwise_lt_range _)
  have h2 : a < b := hab
  omega

lemma beBytes_one (v : Int) : beBytes v 1 = [v % 256] := by
  norm_num [beBytes, List.range_succ]

lemma beBytes_two (v : Int) : beBytes v 2 = [v / 256 % 256, v % 256] := by
  norm_num [beBytes, List.range_succ]

lemma beBytes_three (v : Int) :
    beBytes v 3 = [v / 65536 % 256, v / 256 % 256, v % 256] := by
  norm_num [beBytes, List.range_succ]

lemma beBytes_four (v : Int) :
    beBytes v 4 =
      [v / 16777216 % 256, v / 65536 % 256, v / 256 % 256, v % 256] := by
  norm_num [beBytes, List.range_succ]

/-- C1: for every `memaddr ≥ 0` and `addrsize ∈ {8, 16, 24, 32}`,
`memaddr_to_bytes` returns exactly `addrsize / 8` bytes, each in `[0, 256)`,
forming the big-endian encoding (most significant byte first) of
`memaddr mod 2 ^ addrsize`. -/
theorem claim_C1 (memaddr addrsize : Int) (h0 : 0 ≤ memaddr)
    (h : addrsize = 8 ∨ addrsize = 16 ∨ addrsize = 24 ∨ addrsize = 32) :
    memaddr_to_bytes memaddr addrsize =
      Except.ok (beBytes (memaddr % 2 ^ addrsize.toNat) (addrsize.toNat / 8)) ∧
    (beBytes (memaddr % 2 ^ addrsize.toNat) (addrsize.toNat / 8)).length =
      addrsize.toNat / 8 ∧
    ∀ b ∈ beBytes (memaddr % 2 ^ addrsize.toNat) (addrsize.toNat / 8),
      0 ≤ b ∧ b < 256 := by
  have hlen : ∀ (v : Int) (k : Nat), (beBytes v k).length = k := by
    intro v k
    simp [beBytes]
  have hbound : ∀ (v : Int) (k : Nat), ∀ b ∈ beBytes v k, 0 ≤ b ∧ b < 256 := by
    intro v k b hb
    simp only [beBytes, List.mem_map] at hb
    obtain ⟨j, _, rfl⟩ := hb
    exact emod256_bound _
  rcases h with rfl | rfl | rfl | rfl
  · refine ⟨?_, hlen _ _, hbound _ _⟩
    rw [memaddr_to_bytes_8, show Int.toNat 8 = 8 from rfl]
    norm_num [beBytes_one]
    all_goals omega
  · refine ⟨?_, hlen _ _, hbound _ _⟩
    rw [memaddr_to_bytes_16, show Int.toNat 16 = 16 from rfl]
    norm_num [beBytes_two]
    all_goals omega
  · refine ⟨?_, hlen _ _, hbound _ _⟩
    rw [memaddr_to_bytes_24, show Int.toNat 24 = 24 from rfl]
    norm_num [beBytes_three]
    all_goals omega
  · refine ⟨?_, hlen _ _, hbound _ _⟩
    rw [memaddr_to_bytes_32, show Int.toNat 32 = 32 from rfl]
    norm_num [beBytes_four]
    all_goals omega

theorem claim_C1_witness :
    memaddr_to_bytes 0xC52A 16 = Except.ok [0xC5, 0x2A] ∧
    beBytes ((0xC52A : Int) % 2 ^ (16 : Int).toNat) ((16 : Int).toNat / 8) =
      [0xC5, 0x2A] := by
  have h := claim_C1 0xC52A 16 (by norm_num) (by norm_num)
  have hb : beBytes ((0xC52A : Int) % 2 ^ (16 : Int).toNat)
      ((16 : Int).toNat / 8) = [0xC5, 0x2A] := rfl
  exact ⟨h.1.trans (congrArg Except.ok hb), hb⟩

lemma addrsize_invalid_iff (a : Int) :
    (a % 8 ≠ 0 ∨ a > 32 ∨ a < 8) ↔ ¬(a = 8 ∨ a = 16 ∨ a = 24 ∨ a = 32) := by
  omega

/-- C2: `memaddr_to_bytes` raises `I2CMemoryAddressSizeError` iff `addrsize`
is not one of 8, 16, 24, 32; consequently `I2C.writeto_mem` with such an
invalid `addrsize` raises that error having performed no driver call (the
driver's `writeto` is never called). -/
theorem claim_C2 (memaddr addrsize addr : Int) (buf : List Int) :
    (memaddr_to_bytes memaddr addrsize =
        Except.error (PyErr.memAddrSize addrsize) ↔
      ¬(addrsize = 8 ∨ addrsize = 16 ∨ addrsize = 24 ∨ addrsize = 32)) ∧
    (¬(addrsize = 8 ∨ addrsize = 16 ∨ addrsize = 24 ∨ addrsize = 32) →
      i2c_writeto_mem_calls addr memaddr buf addrsize =
        (Except.error (PyErr.memAddrSize addrsize), [])) := by
  have herr : (addrsize % 8 ≠ 0 ∨ addrsize > 32 ∨ addrsize < 8) →
      memaddr_to_bytes memaddr addrsize =
        Except.error (PyErr.memAddrSize addrsize) := by
    intro hinv
    simp only [memaddr_to_bytes]
    rw [if_pos hinv]
  constructor
  · constructor
    · intro he
      by_contra hv
      rcases hv with rfl | rfl | rfl | rfl
      · rw [memaddr_to_bytes_8] at he
        exact absurd he (by simp)
      · rw [memaddr_to_bytes_16] at he
        exact absurd he (by simp)
      · rw [memaddr_to_bytes_24] at he
        exact absurd he (by simp)
      · rw [memaddr_to_bytes_32] at he
        exact absurd he (by simp)
    · intro hv
      exact herr ((addrsize_invalid_iff addrsize).mpr hv)
  · intro hv
    simp only [i2c_writeto_mem_calls]
    rw [herr ((addrsize_invalid_iff addrsize).mpr hv)]

theorem claim_C2_witness :
    memaddr_to_bytes 5 9 = Except.error (PyErr.memAddrSize 9) ∧
    i2c_writeto_mem_calls 2 5 [1] 9 =
      (Except.error (PyErr.memAddrSize 9), []) := by
  have h := claim_C2 5 9 2 [1]
  exact ⟨h.1.mpr (by norm_num), h.2 (by norm_num)⟩

/-- C3: for a 7-bit address `0 ≤ addr ≤ 127`, `i2c_addr_byte` returns the
single byte `(addr << 1) | (1 if is_read else 0)`: the read/write flag is the
least significant bit and the address the upper seven bits, and the value
fits in one byte. -/
theorem claim_C3 (addr : Int) (is_read : Bool) (h0 : 0 ≤ addr)
    (h1 : addr ≤ 127) :
    i2c_addr_byte addr is_read =
      Except.ok [2 * addr + (if is_read then 1 else 0)] ∧
    (2 * addr + (if is_read then 1 else 0)) % 2 =
      (if is_read then 1 else 0) ∧
    (2 * addr + (if is_read then 1 else 0)) / 2 = addr ∧
    0 ≤ 2 * addr + (if is_read then 1 else 0) ∧
    2 * addr + (if is_read then 1 else 0) < 256 := by
  refine ⟨i2c_addr_byte_ok addr is_read h0 h1, ?_, ?_, ?_, ?_⟩ <;>
    cases is_read <;> simp <;> omega

theorem claim_C3_witness :
    i2c_addr_byte 66 true = Except.ok [133] ∧ (133 : Int) % 2 = 1 ∧
    (133 : Int) / 2 = 66 := by
  have h := claim_C3 66 true (by norm_num) (by norm_num)
  norm_num at h
  exact ⟨h, by norm_num, by norm_num⟩

/-- C4 (evaluation at the failing input): when a native call returns the
falsy code 0, `CH347._check_ret` raises the typed
`I2COperationFailedError`, but `CH341._check_ret` instead raises `TypeError`
(its constructor call `I2COperationFailedError()` is missing the required
positional argument `operation`); non-zero codes pass through. -/
theorem claim_C4_eval :
    ch341_check_ret 0 = Except.error PyErr.typeErr ∧
    ch341_check_ret 1 = Except.ok () ∧
    ch347_check_ret 0 "CH347StreamI2C" =
      Except.error (PyErr.opFailed "CH347StreamI2C") ∧
    ch347_check_ret 1 "CH347StreamI2C" = Except.ok () :=
  ⟨rfl, rfl, rfl, rfl⟩

/-- C9: `CH341.readfrom_mem_into` ignores `addrsize` entirely and sends the
address byte followed by the single byte `memaddr` (raising `ValueError`
when `memaddr > 255`), whereas `CH347.readfrom_mem_into` encodes `memaddr`
with `memaddr_to_bytes`, so for `addrsize = 16` the two drivers send
different byte sequences. -/
theorem claim_C9 (addr : Int) (h0 : 0 ≤ addr) (h1 : addr ≤ 127)
    (memaddr addrsize addrsize2 : Int) :
    (0 ≤ memaddr ∧ memaddr ≤ 255 →
      ch341_readfrom_mem_wbuf addr memaddr addrsize =
        Except.ok [2 * addr, memaddr]) ∧
    ch341_readfrom_mem_wbuf addr memaddr addrsize =
      ch341_readfrom_mem_wbuf addr memaddr addrsize2 ∧
    (255 < memaddr →
      ch341_readfrom_mem_wbuf addr memaddr addrsize =
        Except.error PyErr.valueErr) ∧
    (0 ≤ memaddr ∧ memaddr ≤ 255 →
      ch347_readfrom_mem_wbuf addr memaddr 16 =
        Except.ok [2 * addr, memaddr / 256 % 256, memaddr % 256] ∧
      ch347_readfrom_mem_wbuf addr memaddr 16 ≠
        ch341_readfrom_mem_wbuf addr memaddr 16) := by
  have hab := i2c_addr_byte_ok_false addr h0 h1
  refine ⟨?_, rfl, ?_, ?_⟩
  · rintro ⟨hm0, hm1⟩
    simp only [ch341_readfrom_mem_wbuf, hab, to_buffer]
    rw [if_pos ⟨hm0, by omega⟩]
    rfl
  · intro hm
    simp only [ch341_readfrom_mem_wbuf, hab, to_buffer]
    rw [if_neg (by omega)]
  · rintro ⟨hm0, hm1⟩
    have h347 : ch347_readfrom_mem_wbuf addr memaddr 16 =
        Except.ok [2 * addr, memaddr / 256 % 256, memaddr % 256] := by
      simp only [ch347_readfrom_mem_wbuf, hab, memaddr_to_bytes_16]
      rfl
    have h341 : ch341_readfrom_mem_wbuf addr memaddr 16 =
        Except.ok [2 * addr, memaddr] := by
      simp only [ch341_readfrom_mem_wbuf, hab, to_buffer]
      rw [if_pos ⟨hm0, by omega⟩]
      rfl
    refine ⟨h347, ?_⟩
    rw [h347, h341]
    intro hcontra
    simp at hcontra

theorem claim_C9_witness :
    ch341_readfrom_mem_wbuf 0x51 0x10 16 = Except.ok [0xA2, 0x10] ∧
    ch347_readfrom_mem_wbuf 0x51 0x10 16 = Except.ok [0xA2, 0x00, 0x10] ∧
    ch341_readfrom_mem_wbuf 0x51 0x0110 8 = Except.error PyErr.valueErr := by
  have h := claim_C9 0x51 (by norm_num) (by norm_num) 0x10 16 8
  have h2 := claim_C9 0x51 (by norm_num) (by norm_num) 0x0110 8 8
  refine ⟨?_, ?_, h2.2.2.1 (by norm_num)⟩
  · have := h.1 (by norm_num)
    norm_num at this
    exact this
  · have := (h.2.2.2 (by norm_num)).1
    norm_num at this
    exact this

/-- C10: `i2c_addr_byte` returns normally exactly when the encoded value
`(addr << 1) | is_read` fits in one byte, which happens exactly when
`0 ≤ addr ≤ 127`; for `addr ≥ 128` or `addr < 0` the one-byte conversion
raises `OverflowError`. -/
theorem claim_C10 (addr : Int) (is_read : Bool) :
    ((∃ l, i2c_addr_byte addr is_read = Except.ok l) ↔
      0 ≤ 2 * addr + (if is_read then 1 else 0) ∧
        2 * addr + (if is_read then 1 else 0) < 256) ∧
    ((0 ≤ 2 * addr + (if is_read then 1 else 0) ∧
        2 * addr + (if is_read then 1 else 0) < 256) ↔
      0 ≤ addr ∧ addr ≤ 127) ∧
    (128 ≤ addr ∨ addr < 0 →
      i2c_addr_byte addr is_read = Except.error PyErr.overflowErr) := by
  refine ⟨?_, ?_, ?_⟩
  · by_cases hc : 0 ≤ 2 * addr + (if is_read then 1 else 0) ∧
        2 * addr + (if is_read then 1 else 0) < 256
    · simp only [i2c_addr_byte]
      rw [if_pos hc]
      exact ⟨fun _ => hc, fun _ => ⟨_, rfl⟩⟩
    · simp only [i2c_addr_byte]
      rw [if_neg hc]
      constructor
      · rintro ⟨l, hl⟩
        exact absurd hl (by simp)
      · intro hcc
        exact absurd hcc hc
  · cases is_read <;> simp <;> omega
  · intro h
    have hc : ¬(0 ≤ 2 * addr + (if is_read then 1 else 0) ∧
        2 * addr + (if is_read then 1 else 0) < 256) := by
      cases is_read <;> simp <;> omega
    simp only [i2c_addr_byte]
    rw [if_neg hc]

theorem claim_C10_witness :
    i2c_addr_byte 200 false = Except.error PyErr.overflowErr :=
  (claim_C10 200 false).2.2 (by norm_num)

/-- C5: with `start ≤ stop`, `I2C.scan` returns exactly the addresses `a`
with `start ≤ a ≤ stop` (both inclusive) for which the driver's
`check_device(a)` returns True, in increasing order, and raises
`I2CUnsupportedError` when the driver does not support scan on the current
platform. -/
theorem claim_C5 (supports : Bool) (check : Int → Bool) (start stop : Int)
    (hss : start ≤ stop) :
    (supports = true →
      ∃ l, i2c_scan supports check start stop = Except.ok l ∧
        (∀ a, a ∈ l ↔ start ≤ a ∧ a ≤ stop ∧ check a = true) ∧
        List.Sorted (· < ·) l) ∧
    (supports = false →
      i2c_scan supports check start stop = Except.error PyErr.unsupported) := by
  constructor
  · rintro rfl
    refine ⟨(pyRangeUp start (stop + 1)).filter check, rfl, ?_, ?_⟩
    · intro a
      rw [List.mem_filter, pyRangeUp_mem]
      constructor
      · rintro ⟨⟨ha1, ha2⟩, hc⟩
        exact ⟨ha1, by omega, hc⟩
      · rintro ⟨ha1, ha2, hc⟩
        exact ⟨⟨ha1, by omega⟩, hc⟩
    · exact List.Pairwise.filter _ (pyRangeUp_sorted start (stop + 1))
  · rintro rfl
    rfl

theorem claim_C5_witness :
    (∃ l, i2c_scan true (fun a => decide (a % 2 = 0)) 8 10 = Except.ok l ∧
      (∀ a, a ∈ l ↔ 8 ≤ a ∧ a ≤ 10 ∧ decide (a % 2 = 0) = true) ∧
      List.Sorted (· < ·) l) ∧
    i2c_scan false (fun a => decide (a % 2 = 0)) 8 10 =
      Except.error PyErr.unsupported := by
  have h1 := claim_C5 true (fun a => decide (a % 2 = 0)) 8 10 (by norm_num)
  have h2 := claim_C5 false (fun a => decide (a % 2 = 0)) 8 10 (by norm_num)
  exact ⟨h1.1 rfl, h2.2 rfl⟩

/-- With the `CH34x` spelling, the CH347 loader binds the fallbacks it can
find; `"CH34xWiteData"` does not exist, so no binding for
`"CH347WiteData"` (and none for the `"CH347WriteData"` actually called by
the driver) is created. -/
def ch347_loaded_ch34x : Dll :=
  { exports := ch34x_exports,
    bindings :=
      [("CH347OpenDevice", "CH34xOpenDevice"),
       ("CH347CloseDevice", "CH34xCloseDevice"),
       ("CH347StreamI2C", "CH34xStreamI2C"),
       ("CH347WriteRead", "CH34xWriteRead")] }

/-- C6 (evaluation at the failing input): loading the CH347 driver against a
shared object that exports the `CH34x` spelling of every required function
succeeds, yet leaves both `"CH347WiteData"` (the misspelt required-list
entry) and `"CH347WriteData"` (the symbol the driver actually calls)
unresolvable, while the other required names are bound; the CH341 loader on
the same library binds its whole required list. -/
theorem claim_C6_eval :
    ch347_load { exports := ch34x_exports, bindings := [] } =
      Except.ok ch347_loaded_ch34x ∧
    dll_lookup ch347_loaded_ch34x "CH347WriteData" = none ∧
    dll_lookup ch347_loaded_ch34x "CH347WiteData" = none ∧
    dll_lookup ch347_loaded_ch34x "CH347OpenDevice" = some "CH34xOpenDevice" ∧
    ch341_load { exports := ch34x_exports, bindings := [] } =
      Except.ok ch341_loaded_ch34x ∧
    (ch341_funcs.all fun f => (dll_lookup ch341_loaded_ch34x f).isSome) = true :=
  ⟨rfl, rfl, rfl, rfl, rfl, rfl⟩

/-- C7: none of the data-transfer or query operations changes any field of
the `I2C` object or of its driver object: the state after each of
`readfrom`, `readfrom_into`, `writeto`, `readfrom_mem`, `readfrom_mem_into`,
`writeto_mem` and `scan` equals the state before, whether the operation
returns a value or an exception. -/
theorem claim_C7 (st : I2CState) (native : Native) (addr memaddr : Int)
    (nbytes rlen : Nat) (buf : PyData) (wbuf : List Int) (addrsize : Int)
    (supports : Bool) (start stop : Int) :
    (i2c_readfrom st native addr nbytes).2 = st ∧
    (i2c_readfrom_into st native addr rlen).2 = st ∧
    (i2c_writeto st native addr buf).2 = st ∧
    (i2c_readfrom_mem st native addr memaddr nbytes addrsize).2 = st ∧
    (i2c_readfrom_mem_into st native addr memaddr rlen addrsize).2 = st ∧
    (i2c_writeto_mem st native addr memaddr wbuf addrsize).2 = st ∧
    (i2c_scan_st st native supports start stop).2 = st :=
  ⟨i2c_readfrom_frame st native addr nbytes,
   i2c_readfrom_into_frame st native addr rlen,
   i2c_writeto_frame st native addr buf,
   i2c_readfrom_mem_frame st native addr memaddr nbytes addrsize,
   i2c_readfrom_mem_into_frame st native addr memaddr rlen addrsize,
   i2c_writeto_mem_frame st native addr memaddr wbuf addrsize,
   i2c_scan_st_frame st native supports start stop⟩

/-- C8: the driver module name is the lowercased `driver` argument when that
is given and non-empty, else the lowercased environment variable
`I2CPY_DRIVER` when defined and non-empty, else `"ch341"`; and
`I2CInvalidDriverError` is raised exactly when importing
`i2cpy.driver.<name>` fails. -/
theorem claim_C8 (avail : String → Bool) (driver env : Option String) :
    (∀ s, driver = some s → s ≠ "" →
      select_driver_name driver env = py_lower s) ∧
    ((driver = none ∨ driver = some "") → ∀ s, env = some s → s ≠ "" →
      select_driver_name driver env = py_lower s) ∧
    ((driver = none ∨ driver = some "") → (env = none ∨ env = some "") →
      select_driver_name driver env = "ch341") ∧
    (i2c_select_driver avail driver env =
        Except.error (PyErr.invalidDriver (select_driver_name driver env)) ↔
      avail ("i2cpy.driver." ++ select_driver_name driver env) = false) ∧
    (avail ("i2cpy.driver." ++ select_driver_name driver env) = true →
      i2c_select_driver avail driver env =
        Except.ok (select_driver_name driver env)) := by
  refine ⟨?_, ?_, ?_, ?_, ?_⟩
  · rintro s rfl hs
    simp [select_driver_name, py_str_or, hs]
  · rintro (rfl | rfl) s rfl hs <;> simp [select_driver_name, py_str_or, hs]
  · rintro (rfl | rfl) (rfl | rfl) <;> rfl
  · simp only [i2c_select_driver]
    by_cases ha : avail ("i2cpy.driver." ++ select_driver_name driver env)
    · rw [if_pos ha]
      simp [ha]
    · rw [if_neg ha]
      simp [Bool.not_eq_true] at ha
      simp [ha]
  · intro ha
    simp only [i2c_select_driver]
    rw [if_pos ha]

theorem claim_C8_witness :
    select_driver_name (some "Foo") none = "foo" ∧
    select_driver_name none (some "CH347") = "ch347" ∧
    select_driver_name none none = "ch341" ∧
    i2c_select_driver (fun _ => false) (some "Foo") none =
      Except.error (PyErr.invalidDriver "foo") := by
  have h1 := claim_C8 (fun _ => false) (some "Foo") none
  have h2 := claim_C8 (fun _ => false) none (some "CH347")
  have h3 := claim_C8 (fun _ => false) none none
  have h5 : select_driver_name (some "Foo") none = "foo" :=
    (h1.1 "Foo" rfl (by decide)).trans (by decide)
  refine ⟨h5, ?_, ?_, ?_⟩
  · exact (h2.2.1 (Or.inl rfl) "CH347" rfl (by decide)).trans (by decide)
  · exact h3.2.2.1 (Or.inl rfl) (Or.inl rfl)
  · have h4 := (h1.2.2.2.1).mpr rfl
    rw [h4, h5]
